import Mathlib

/-
Verification of the FrameBuffer Display Controller (main.py) against its
natural-language specification.

Shallow embedding conventions:
- Python floats that hold wall-clock times and intervals are modelled as
  rationals (ℚ); every arithmetic fact proved here involves only small
  decimal constants whose float computations are order-exact.
- numpy uint16 arithmetic is modelled on ℕ with an explicit `% 65536`.
- Byte strings are `List ℕ` (each entry a byte value).
- The md5 content digest (hashlib) is external to the repository; it is a
  deterministic pure function of the byte content, modelled here by the
  byte content itself (determinism is the property the program relies on).
- Exceptions raised by external calls (device I/O, subprocess, importlib)
  are modelled by explicit outcome parameters.
-/

-- ==============================================
-- PixelEncoder: FrameBufferWriter.convert_to_rgb565
-- ==============================================

/-- An RGB pixel as produced by `np.array(img.convert('RGB'))`: three
channel values, each a byte. -/
structure RGB where
  r : Nat
  g : Nat
  b : Nat
deriving DecidableEq, Repr

/-- One pixel of the RGB565 conversion, computed in numpy uint16
arithmetic (hence the `% 65536`), from
`rgb565 = ((r & 0xF8) << 8) | ((g & 0xFC) << 3) | (b >> 3)`. -/
def rgb565Pixel (r g b : Nat) : Nat :=
  (((r &&& 0xF8) <<< 8) ||| ((g &&& 0xFC) <<< 3) ||| (b >>> 3)) % 65536

/-- The row-major list of 16-bit RGB565 words of a frame (a frame is a
list of rows, each row a list of pixels), as produced elementwise by the
numpy expression in `convert_to_rgb565`. -/
def rgb565Words (frame : List (List RGB)) : List Nat :=
  (frame.map (fun row => row.map (fun p => rgb565Pixel p.r p.g p.b))).flatten

/-- FrameBufferWriter.convert_to_rgb565: the frame as bytes, two bytes per
16-bit word in the device byte order (`rgb565.tobytes()`, little-endian on
the target). -/
def convert_to_rgb565 (frame : List (List RGB)) : List Nat :=
  (rgb565Words frame).flatMap (fun v => [v % 256, v / 256])

theorem twoBytes_length (l : List Nat) :
    (l.flatMap (fun v => [v % 256, v / 256])).length = 2 * l.length := by
  induction l with
  | nil => simp
  | cons a t ih => simp [ih]; omega

theorem rgb565Words_length (frame : List (List RGB)) (w : Nat)
    (hw : ∀ row ∈ frame, row.length = w) :
    (rgb565Words frame).length = w * frame.length := by
  induction frame with
  | nil => simp [rgb565Words]
  | cons row rest ih =>
    have hrow : row.length = w := hw row (by simp)
    have hrest : ∀ r ∈ rest, r.length = w := fun r hr => hw r (by simp [hr])
    simp [rgb565Words] at ih ⊢
    rw [ih hrest, hrow]
    ring

theorem rgb565_raw_lt (r g b : Nat) (hb : b < 256) :
    ((r &&& 0xF8) <<< 8) ||| ((g &&& 0xFC) <<< 3) ||| (b >>> 3) < 65536 := by
  have h1 : (r &&& 0xF8) <<< 8 < 2 ^ 16 := by
    have ha : r &&& 0xF8 ≤ 0xF8 := Nat.and_le_right
    have he : (r &&& 0xF8) <<< 8 = (r &&& 0xF8) * 256 := by
      rw [Nat.shiftLeft_eq]
    omega
  have h2 : (g &&& 0xFC) <<< 3 < 2 ^ 16 := by
    have ha : g &&& 0xFC ≤ 0xFC := Nat.and_le_right
    have he : (g &&& 0xFC) <<< 3 = (g &&& 0xFC) * 8 := by
      rw [Nat.shiftLeft_eq]
    omega
  have h3 : b >>> 3 < 2 ^ 16 := by
    have hle : b >>> 3 = b / 8 := by
      rw [Nat.shiftRight_eq_div_pow]
    omega
  have : ((r &&& 0xF8) <<< 8) ||| ((g &&& 0xFC) <<< 3) ||| (b >>> 3) < 2 ^ 16 :=
    Nat.or_lt_two_pow (Nat.or_lt_two_pow h1 h2) h3
  omega

theorem rgb565Pixel_eq_raw (r g b : Nat) (hb : b < 256) :
    rgb565Pixel r g b = ((r &&& 0xF8) <<< 8) ||| ((g &&& 0xFC) <<< 3) ||| (b >>> 3) := by
  unfold rgb565Pixel
  exact Nat.mod_eq_of_lt (rgb565_raw_lt r g b hb)

/-- C2: for every RGB frame of dimensions width × height (each channel a
byte), the encoder produces for each pixel the 16-bit word
`(R & 0xF8) <<< 8 ||| (G & 0xFC) <<< 3 ||| (B >>> 3)` in row-major order,
the total output is exactly 2 × width × height bytes, pure white encodes
to 0xFFFF and pure black to 0x0000. -/
theorem convert_to_rgb565_correct (frame : List (List RGB)) (w : Nat)
    (hw : ∀ row ∈ frame, row.length = w)
    (hvalid : ∀ row ∈ frame, ∀ p ∈ row, p.r < 256 ∧ p.g < 256 ∧ p.b < 256) :
    (convert_to_rgb565 frame).length = 2 * (w * frame.length)
    ∧ rgb565Words frame = (frame.map (fun row => row.map (fun p =>
        ((p.r &&& 0xF8) <<< 8) ||| ((p.g &&& 0xFC) <<< 3) ||| (p.b >>> 3)))).flatten
    ∧ rgb565Pixel 255 255 255 = 0xFFFF ∧ rgb565Pixel 0 0 0 = 0 := by
  refine ⟨?_, ?_, by decide, by decide⟩
  · unfold convert_to_rgb565
    rw [twoBytes_length, rgb565Words_length frame w hw]
  · unfold rgb565Words
    congr 1
    apply List.map_congr_left
    intro row hrow
    apply List.map_congr_left
    intro p hp
    exact rgb565Pixel_eq_raw p.r p.g p.b (hvalid row hrow p hp).2.2

theorem convert_to_rgb565_correct_w :
    (convert_to_rgb565 [[⟨255, 255, 255⟩, ⟨0, 0, 0⟩]]).length = 2 * (2 * 1)
    ∧ rgb565Words [[⟨255, 255, 255⟩, ⟨0, 0, 0⟩]]
        = (([[⟨255, 255, 255⟩, ⟨0, 0, 0⟩]] : List (List RGB)).map (fun row => row.map (fun p =>
            ((p.r &&& 0xF8) <<< 8) ||| ((p.g &&& 0xFC) <<< 3) ||| (p.b >>> 3)))).flatten
    ∧ rgb565Pixel 255 255 255 = 0xFFFF ∧ rgb565Pixel 0 0 0 = 0 :=
  convert_to_rgb565_correct [[⟨255, 255, 255⟩, ⟨0, 0, 0⟩]] 2
    (by decide) (by decide)

-- ==============================================
-- ChangeDetector + DeviceWriter: FrameBufferWriter
-- ==============================================

/-- Content digest of an encoded frame. hashlib.md5 is external to the
repository; what the program relies on is that it is a deterministic pure
function of the byte content, modelled here by the byte content itself. -/
def md5 (data : List Nat) : List Nat := data

/-- State of FrameBufferWriter: device path and frame_size from
construction, whether `open()` has been called (fb_handle non-None), the
digest of the last written frame (initially None), and the diagnostic
counters. -/
structure FrameBufferWriter where
  fb_device : String
  frame_size : Nat
  fb_open : Bool
  last_frame_hash : Option (List Nat)
  write_count : Nat
  total_bytes_written : Nat
deriving DecidableEq, Repr

/-- One write performed on the device file: the seek offset and the bytes
passed to `write`. -/
structure WriteOp where
  offset : Nat
  data : List Nat
deriving DecidableEq, Repr

/-- FrameBufferWriter.write_frame. `io_ok` stands for the seek/write/flush
sequence completing without raising (the `except` branch catches any I/O
error, returning False with no state mutated). Returns the new writer
state, the writes performed on the device, and the boolean result. -/
def write_frame (wr : FrameBufferWriter) (frame_data : List Nat)
    (force : Bool) (io_ok : Bool) :
    FrameBufferWriter × List WriteOp × Bool :=
  if wr.fb_open = false then (wr, [], false)
  else
    let current_hash := md5 frame_data
    if force = true ∨ some current_hash ≠ wr.last_frame_hash then
      if io_ok then
        ({ wr with
            last_frame_hash := some current_hash,
            write_count := wr.write_count + 1,
            total_bytes_written := wr.total_bytes_written + wr.frame_size },
         [{ offset := 0, data := frame_data.take wr.frame_size }], true)
      else (wr, [], false)
    else (wr, [], false)

theorem write_frame_open_cases (wr : FrameBufferWriter) (d : List Nat)
    (force io : Bool) (h : wr.fb_open = true) :
    write_frame wr d force io =
      if force = true ∨ some (md5 d) ≠ wr.last_frame_hash then
        if io then
          ({ wr with
              last_frame_hash := some (md5 d),
              write_count := wr.write_count + 1,
              total_bytes_written := wr.total_bytes_written + wr.frame_size },
           [{ offset := 0, data := d.take wr.frame_size }], true)
        else (wr, [], false)
      else (wr, [], false) := by
  simp [write_frame, h]

theorem write_frame_closed (wr : FrameBufferWriter) (d : List Nat)
    (force io : Bool) (h : wr.fb_open = false) :
    write_frame wr d force io = (wr, [], false) := by
  simp [write_frame, h]

theorem write_frame_same_hash (wr : FrameBufferWriter) (d : List Nat)
    (io : Bool) (hl : wr.last_frame_hash = some (md5 d)) :
    (write_frame wr d false io).1 = wr := by
  cases hb : wr.fb_open with
  | false => rw [write_frame_closed wr d false io hb]
  | true =>
    rw [write_frame_open_cases wr d false io hb]
    simp [hl]

theorem write_frame_count_step (wr : FrameBufferWriter) (d : List Nat)
    (force io : Bool) :
    (write_frame wr d force io).1.write_count = wr.write_count
    ∨ ((write_frame wr d force io).1.write_count = wr.write_count + 1
        ∧ (write_frame wr d force io).1.last_frame_hash = some (md5 d)) := by
  cases hb : wr.fb_open with
  | false =>
    rw [write_frame_closed wr d force io hb]
    left; rfl
  | true =>
    rw [write_frame_open_cases wr d force io hb]
    by_cases h1 : force = true ∨ some (md5 d) ≠ wr.last_frame_hash
    · rw [if_pos h1]
      cases io with
      | false => left; rfl
      | true => right; exact ⟨rfl, rfl⟩
    · rw [if_neg h1]
      left; rfl

/-- C3: a frame write is performed iff force is set or the digest of the
new bytes differs from the digest of the last successfully written frame;
an accepted write updates the stored digest; and across two consecutive
unforced cycles with byte-identical frames the write count grows by at
most 1. -/
theorem write_frame_change_detection (wr : FrameBufferWriter) (d : List Nat)
    (force : Bool) (hopen : wr.fb_open = true) :
    ((write_frame wr d force true).2.2 = true ↔
      (force = true ∨ some (md5 d) ≠ wr.last_frame_hash))
  ∧ ((write_frame wr d force true).2.2 = true →
      (write_frame wr d force true).1.last_frame_hash = some (md5 d))
  ∧ (∀ io1 io2 : Bool,
      (write_frame (write_frame wr d false io1).1 d false io2).1.write_count
        ≤ wr.write_count + 1) := by
  refine ⟨?_, ?_, ?_⟩
  · rw [write_frame_open_cases wr d force true hopen]
    by_cases h1 : force = true ∨ some (md5 d) ≠ wr.last_frame_hash
    · rw [if_pos h1, if_pos rfl]
      simpa using h1
    · rw [if_neg h1]
      simpa using h1
  · rw [write_frame_open_cases wr d force true hopen]
    by_cases h1 : force = true ∨ some (md5 d) ≠ wr.last_frame_hash
    · rw [if_pos h1, if_pos rfl]
      intro _
      rfl
    · rw [if_neg h1]
      intro h
      exact absurd h (by simp)
  · intro io1 io2
    rcases write_frame_count_step wr d false io1 with h1 | hh1
    · rcases write_frame_count_step (write_frame wr d false io1).1 d false io2
        with h2 | hh2
      · omega
      · omega
    · have h2 := write_frame_same_hash (write_frame wr d false io1).1 d io2 hh1.2
      rw [h2]
      omega

def wrEx3 : FrameBufferWriter :=
  { fb_device := "/dev/fb1", frame_size := 307200, fb_open := true,
    last_frame_hash := none, write_count := 0, total_bytes_written := 0 }

theorem write_frame_change_detection_w :
    ((write_frame wrEx3 [1, 2, 3] false true).2.2 = true ↔
      (false = true ∨ some (md5 [1, 2, 3]) ≠ wrEx3.last_frame_hash))
  ∧ ((write_frame wrEx3 [1, 2, 3] false true).2.2 = true →
      (write_frame wrEx3 [1, 2, 3] false true).1.last_frame_hash
        = some (md5 [1, 2, 3]))
  ∧ (∀ io1 io2 : Bool,
      (write_frame (write_frame wrEx3 [1, 2, 3] false io1).1 [1, 2, 3]
          false io2).1.write_count ≤ wrEx3.write_count + 1) :=
  write_frame_change_detection wrEx3 [1, 2, 3] false rfl

/-- C4: every write performed on the device seeks to offset zero and
passes exactly min(len(bytes), frame_size) bytes, hence never more than
frame_size bytes in any single write. -/
theorem write_frame_bounded (wr : FrameBufferWriter) (d : List Nat)
    (force io : Bool) :
    ∀ op ∈ (write_frame wr d force io).2.1,
      op.offset = 0 ∧ op.data.length = min d.length wr.frame_size
        ∧ op.data.length ≤ wr.frame_size := by
  intro op hop
  cases hb : wr.fb_open with
  | false =>
    rw [write_frame_closed wr d force io hb] at hop
    exact absurd hop (by simp)
  | true =>
    rw [write_frame_open_cases wr d force io hb] at hop
    by_cases h1 : force = true ∨ some (md5 d) ≠ wr.last_frame_hash
    · rw [if_pos h1] at hop
      cases io with
      | false => exact absurd hop (by simp)
      | true =>
        rw [if_pos rfl] at hop
        have hop2 : op = { offset := 0, data := d.take wr.frame_size } := by
          simpa using hop
        subst hop2
        refine ⟨rfl, ?_, ?_⟩
        · simp [List.length_take]
          omega
        · simp [List.length_take]
    · rw [if_neg h1] at hop
      exact absurd hop (by simp)

def wrEx4 : FrameBufferWriter :=
  { fb_device := "/dev/fb1", frame_size := 2, fb_open := true,
    last_frame_hash := none, write_count := 0, total_bytes_written := 0 }

theorem write_frame_bounded_w :
    ({ offset := 0, data := [5, 6] } : WriteOp).offset = 0
    ∧ ({ offset := 0, data := [5, 6] } : WriteOp).data.length
        = min ([5, 6, 7] : List Nat).length wrEx4.frame_size
    ∧ ({ offset := 0, data := [5, 6] } : WriteOp).data.length
        ≤ wrEx4.frame_size :=
  write_frame_bounded wrEx4 [5, 6, 7] false true
    { offset := 0, data := [5, 6] } (by decide)

/-- C10: when a frame write fails — the device handle is not open, or the
seek/write/flush raises — write_frame returns false and the writer state
(stored digest, write count, byte counter) is exactly what it was before
the call; since the stored digest is unchanged, a subsequent unforced call
with the same bytes against a healthy open device is not suppressed and
performs the write. -/
theorem write_frame_failure_preserves (wr : FrameBufferWriter)
    (d : List Nat) (force io : Bool)
    (hfail : wr.fb_open = false ∨ io = false) :
    (write_frame wr d force io).1 = wr
  ∧ (write_frame wr d force io).2.2 = false
  ∧ (wr.fb_open = true → some (md5 d) ≠ wr.last_frame_hash →
      (write_frame (write_frame wr d force io).1 d false true).2.2 = true) := by
  have hstate : write_frame wr d force io = (wr, [], false) := by
    cases hb : wr.fb_open with
    | false => exact write_frame_closed wr d force io hb
    | true =>
      have hio : io = false := by
        rcases hfail with h | h
        · rw [hb] at h; exact absurd h (by simp)
        · exact h
      subst hio
      rw [write_frame_open_cases wr d force false hb]
      by_cases h1 : force = true ∨ some (md5 d) ≠ wr.last_frame_hash
      · rw [if_pos h1, if_neg (by simp)]
      · rw [if_neg h1]
  refine ⟨by rw [hstate], by rw [hstate], ?_⟩
  intro hopen hne
  rw [hstate]
  rw [write_frame_open_cases wr d false true hopen,
    if_pos (Or.inr hne), if_pos rfl]

def wrEx10 : FrameBufferWriter :=
  { fb_device := "/dev/fb1", frame_size := 4, fb_open := true,
    last_frame_hash := some (md5 [9, 9]), write_count := 7,
    total_bytes_written := 28 }

theorem write_frame_failure_preserves_w :
    (write_frame wrEx10 [1, 2] false false).1 = wrEx10
  ∧ (write_frame wrEx10 [1, 2] false false).2.2 = false
  ∧ (wrEx10.fb_open = true → some (md5 [1, 2]) ≠ wrEx10.last_frame_hash →
      (write_frame (write_frame wrEx10 [1, 2] false false).1 [1, 2]
          false true).2.2 = true) :=
  write_frame_failure_preserves wrEx10 [1, 2] false false (Or.inr rfl)

-- ==============================================
-- TimeSyncAgent: TimeSynchronizer
-- ==============================================

/-- State of TimeSynchronizer. Wall-clock seconds are rationals. -/
structure TimeSynchronizer where
  ntp_server : String
  sync_interval : ℚ
  last_sync_time : ℚ
  failed_attempts : Nat
  max_failures : Nat
  sync_in_progress : Bool
deriving DecidableEq, Repr

/-- TimeSynchronizer.should_sync, with the ambient wall clock passed in:
`current_time` is `time.time()`, and `tm_hour`/`tm_min` are the local-time
fields of `time.localtime(current_time)`. -/
def should_sync (ts : TimeSynchronizer) (current_time : ℚ)
    (tm_hour tm_min : Nat) : Bool :=
  let time_since_sync := current_time - ts.last_sync_time
  let should_force_sync :=
    decide (tm_hour = 3) && decide (tm_min < 5) && decide (time_since_sync > 300)
  (decide (time_since_sync > ts.sync_interval) || should_force_sync)
    && decide (ts.failed_attempts < ts.max_failures)
    && !ts.sync_in_progress

/-- Outcome of the external `sudo ntpdate -u <server>` invocation inside
sync_time: exit status 0, non-zero exit status, subprocess.TimeoutExpired,
FileNotFoundError (ntpdate absent), or any other exception. -/
inductive SyncOutcome where
  | success
  | nonzeroExit
  | timeout
  | toolNotFound
  | otherError
deriving DecidableEq, Repr

/-- TimeSynchronizer.sync_time: sets the in-progress flag, runs the
external tool, and per outcome updates the state; the `finally` block
clears the in-progress flag on every path, so the returned state has it
false. `now` is the value of `time.time()` taken on success. Note the
FileNotFoundError handler only logs — it does not touch failed_attempts. -/
def sync_time (ts : TimeSynchronizer) (outcome : SyncOutcome) (now : ℚ) :
    TimeSynchronizer × Bool :=
  match outcome with
  | .success =>
      ({ ts with
          last_sync_time := now,
          failed_attempts := 0,
          sync_in_progress := false }, true)
  | .nonzeroExit =>
      ({ ts with
          failed_attempts := ts.failed_attempts + 1,
          sync_in_progress := false }, false)
  | .timeout =>
      ({ ts with
          failed_attempts := ts.failed_attempts + 1,
          sync_in_progress := false }, false)
  | .toolNotFound =>
      ({ ts with sync_in_progress := false }, false)
  | .otherError =>
      ({ ts with
          failed_attempts := ts.failed_attempts + 1,
          sync_in_progress := false }, false)

/-- C5 counterexample: with the tool unavailable (FileNotFoundError), a
failing sync_time call leaves the consecutive-failure count unchanged at
0 instead of incrementing it to 1, refuting the claim that every failing
outcome increments the count by exactly one. -/
theorem sync_time_toolNotFound_cex :
    (sync_time
        { ntp_server := "ntp.ntsc.ac.cn", sync_interval := 21600,
          last_sync_time := 0, failed_attempts := 0, max_failures := 3,
          sync_in_progress := false }
        SyncOutcome.toolNotFound 100).2 = false
    ∧ (sync_time
        { ntp_server := "ntp.ntsc.ac.cn", sync_interval := 21600,
          last_sync_time := 0, failed_attempts := 0, max_failures := 3,
          sync_in_progress := false }
        SyncOutcome.toolNotFound 100).1.failed_attempts = 0
    ∧ (0 : Nat) ≠ 0 + 1 := by
  refine ⟨rfl, rfl, by decide⟩

/-- C5 amended: a failing sync (non-zero exit, timeout, or an unexpected
error) increments the consecutive-failure count by exactly one, but a
FileNotFoundError (tool unavailable) only logs and leaves the count
unchanged; every non-success outcome returns false and clears the
in-progress flag. -/
theorem sync_time_failure_counts (ts : TimeSynchronizer) (now : ℚ)
    (outcome : SyncOutcome) (h : outcome ≠ SyncOutcome.success) :
    (sync_time ts outcome now).2 = false
  ∧ (sync_time ts outcome now).1.failed_attempts =
      (if outcome = SyncOutcome.toolNotFound then ts.failed_attempts
       else ts.failed_attempts + 1)
  ∧ (sync_time ts outcome now).1.sync_in_progress = false := by
  cases outcome with
  | success => exact absurd rfl h
  | nonzeroExit => exact ⟨rfl, by simp [sync_time], rfl⟩
  | timeout => exact ⟨rfl, by simp [sync_time], rfl⟩
  | toolNotFound => exact ⟨rfl, by simp [sync_time], rfl⟩
  | otherError => exact ⟨rfl, by simp [sync_time], rfl⟩

def tsEx5 : TimeSynchronizer :=
  { ntp_server := "ntp.ntsc.ac.cn", sync_interval := 21600,
    last_sync_time := 0, failed_attempts := 1, max_failures := 3,
    sync_in_progress := false }

theorem sync_time_failure_counts_w :
    (sync_time tsEx5 SyncOutcome.timeout 50).2 = false
  ∧ (sync_time tsEx5 SyncOutcome.timeout 50).1.failed_attempts =
      (if SyncOutcome.timeout = SyncOutcome.toolNotFound
       then tsEx5.failed_attempts else tsEx5.failed_attempts + 1)
  ∧ (sync_time tsEx5 SyncOutcome.timeout 50).1.sync_in_progress = false :=
  sync_time_failure_counts tsEx5 50 SyncOutcome.timeout (by decide)

theorem should_sync_capped (ts : TimeSynchronizer)
    (hcap : ts.max_failures ≤ ts.failed_attempts) (t : ℚ) (hr mn : Nat) :
    should_sync ts t hr mn = false := by
  unfold should_sync
  have h : decide (ts.failed_attempts < ts.max_failures) = false := by
    simp
    omega
  rw [h]
  simp

/-- One synchronizer transition as the controller performs it: both call
sites of sync_time (DisplayController.setup and DisplayController.run)
guard the call with should_sync, so the only reachable mutation of the
synchronizer state is a guarded sync_time call. -/
inductive SyncStep : TimeSynchronizer → TimeSynchronizer → Prop where
  | guardedSync (ts : TimeSynchronizer) (t : ℚ) (hr mn : Nat)
      (outcome : SyncOutcome) (hguard : should_sync ts t hr mn = true) :
      SyncStep ts (sync_time ts outcome t).1

/-- C6: once the consecutive-failure count has reached max_failures, no
guarded sync can ever run again, so the state is frozen and should_sync
returns false at every later time — including times satisfying the
elapsed-interval or early-morning-window conditions. -/
theorem should_sync_permanently_false (ts ts' : TimeSynchronizer)
    (hcap : ts.max_failures ≤ ts.failed_attempts)
    (hreach : Relation.ReflTransGen SyncStep ts ts') :
    ts' = ts ∧ ∀ (t : ℚ) (hr mn : Nat), should_sync ts' t hr mn = false := by
  induction hreach with
  | refl => exact ⟨rfl, should_sync_capped ts hcap⟩
  | tail hab hbc ih =>
    rcases ih with ⟨hb, hfalse⟩
    cases hbc with
    | guardedSync t hr mn outcome hguard =>
      rw [hfalse t hr mn] at hguard
      exact absurd hguard (by simp)

def tsEx6 : TimeSynchronizer :=
  { ntp_server := "ntp.ntsc.ac.cn", sync_interval := 21600,
    last_sync_time := 0, failed_attempts := 3, max_failures := 3,
    sync_in_progress := false }

theorem should_sync_permanently_false_w :
    tsEx6 = tsEx6 ∧ ∀ (t : ℚ) (hr mn : Nat), should_sync tsEx6 t hr mn = false :=
  should_sync_permanently_false tsEx6 tsEx6 (by decide)
    Relation.ReflTransGen.refl

-- ==============================================
-- AdaptiveScheduler: AdaptiveSleeper
-- ==============================================

/-- State of AdaptiveSleeper as set up in __init__. -/
structure AdaptiveSleeper where
  base_interval : ℚ
  last_sleep_time : ℚ
  adaptive_factor : ℚ
  min_interval : ℚ
  max_interval : ℚ
deriving DecidableEq, Repr

/-- AdaptiveSleeper.__init__ with the given base interval: the bounds are
the fixed 0.05 and 2.0 seconds. -/
def mkAdaptiveSleeper (base_interval : ℚ) : AdaptiveSleeper :=
  { base_interval := base_interval, last_sleep_time := 0,
    adaptive_factor := 1, min_interval := 0.05, max_interval := 2 }

/-- AdaptiveSleeper.calculate_sleep_time. -/
def calculate_sleep_time (s : AdaptiveSleeper) (last_frame_time : ℚ) : ℚ :=
  let sleep_time := s.base_interval
  if last_frame_time > s.base_interval * 0.8 then
    min (sleep_time * 1.5) s.max_interval
  else if last_frame_time < s.base_interval * 0.2 then
    max (sleep_time * 0.8) s.min_interval
  else
    sleep_time

/-- C7: whenever the configured intervals are consistent
(0 ≤ minInterval ≤ baseInterval ≤ maxInterval, as with the shipped values
0.05 ≤ 0.5 ≤ 2.0), the computed pause lies within
[minInterval, maxInterval] for every previous cycle duration. -/
theorem calculate_sleep_time_bounds (s : AdaptiveSleeper) (t : ℚ)
    (h0 : 0 ≤ s.min_interval) (h1 : s.min_interval ≤ s.base_interval)
    (h2 : s.base_interval ≤ s.max_interval) :
    s.min_interval ≤ calculate_sleep_time s t
    ∧ calculate_sleep_time s t ≤ s.max_interval := by
  unfold calculate_sleep_time
  split_ifs with hb1 hb2
  · constructor
    · rcases le_total (s.base_interval * 1.5) s.max_interval with h | h
      · rw [min_eq_left h]; nlinarith
      · rw [min_eq_right h]; nlinarith
    · exact min_le_right _ _
  · constructor
    · exact le_max_right _ _
    · rcases le_total (s.base_interval * 0.8) s.min_interval with h | h
      · rw [max_eq_right h]; nlinarith
      · rw [max_eq_left h]; nlinarith
  · exact ⟨h1, h2⟩

theorem calculate_sleep_time_bounds_w :
    (mkAdaptiveSleeper 0.5).min_interval
        ≤ calculate_sleep_time (mkAdaptiveSleeper 0.5) 0.3
    ∧ calculate_sleep_time (mkAdaptiveSleeper 0.5) 0.3
        ≤ (mkAdaptiveSleeper 0.5).max_interval :=
  calculate_sleep_time_bounds (mkAdaptiveSleeper 0.5) 0.3
    (by norm_num [mkAdaptiveSleeper]) (by norm_num [mkAdaptiveSleeper])
    (by norm_num [mkAdaptiveSleeper])

/-- C8 counterexample: with base interval 0.5 and previous duration 0.1,
the tighten branch is not taken — the comparison is strict and
0.1 < 0.5 × 0.2 fails — so the computed pause is the base interval 0.5,
not max(0.5 × 0.8, minInterval) = 0.4. -/
theorem calculate_sleep_time_boundary_cex :
    calculate_sleep_time (mkAdaptiveSleeper 0.5) 0.1 = 0.5
    ∧ ((0.5 : ℚ) ≠ max ((0.5 : ℚ) * 0.8) (mkAdaptiveSleeper 0.5).min_interval) := by
  constructor
  · unfold calculate_sleep_time mkAdaptiveSleeper
    norm_num
  · have : max ((0.5 : ℚ) * 0.8) (mkAdaptiveSleeper 0.5).min_interval = 0.4 := by
      unfold mkAdaptiveSleeper
      rw [max_eq_left (by norm_num)]
      norm_num
    rw [this]
    norm_num

/-- C8 amended: with base interval 0.5, the tighten branch is taken for
previous durations strictly under 20% of the base (t < 0.1), computing
max(0.5 × 0.8, minInterval) = 0.4; at exactly t = 0.1 the strict
comparison excludes the boundary and the pause is the base 0.5. -/
theorem calculate_sleep_time_tighten (t : ℚ)
    (ht : t < (0.5 : ℚ) * 0.2) :
    calculate_sleep_time (mkAdaptiveSleeper 0.5) t
      = max ((0.5 : ℚ) * 0.8) (mkAdaptiveSleeper 0.5).min_interval
    ∧ calculate_sleep_time (mkAdaptiveSleeper 0.5) 0.1 = 0.5 := by
  constructor
  · unfold calculate_sleep_time mkAdaptiveSleeper
    rw [if_neg (by norm_num; nlinarith), if_pos (by norm_num; nlinarith)]
  · unfold calculate_sleep_time mkAdaptiveSleeper
    norm_num

theorem calculate_sleep_time_tighten_w :
    calculate_sleep_time (mkAdaptiveSleeper 0.5) 0.09
      = max ((0.5 : ℚ) * 0.8) (mkAdaptiveSleeper 0.5).min_interval
    ∧ calculate_sleep_time (mkAdaptiveSleeper 0.5) 0.1 = 0.5 :=
  calculate_sleep_time_tighten 0.09 (by norm_num)

-- ==============================================
-- ModuleRegistry: ModuleManager
-- ==============================================

/-- Insertion into a Python set / dict key set (idempotent). -/
def setAdd (l : List String) (x : String) : List String :=
  if x ∈ l then l else x :: l

/-- Removal from a Python set (removes the element if present). -/
def setRemove (l : List String) (x : String) : List String :=
  l.filter (fun y => y ≠ x)

/-- State of ModuleManager: the keys of the loaded-modules dict and the
failed_modules set. -/
structure ModuleManager where
  modules : List String
  failed_modules : List String
deriving DecidableEq, Repr

/-- Result of the importlib resolution plus get_surface validation for a
module that is not yet in sys.modules. -/
inductive LoadOutcome where
  | ok
  | fail
deriving DecidableEq, Repr

/-- ModuleManager.load_module. A module already in the loaded dict was
imported successfully before, so the importlib.import_module call returns
the object cached in sys.modules and the get_surface validation passes
again; only a first-time (or previously failed) import consults the
outcome of the actual resolution. On success the module is stored and
removed from the failed set; on any error the name is added to the failed
set. -/
def load_module (mm : ModuleManager) (name : String)
    (outcome : LoadOutcome) : ModuleManager × Bool :=
  if name ∈ mm.modules ∨ outcome = LoadOutcome.ok then
    ({ modules := setAdd mm.modules name,
       failed_modules := setRemove mm.failed_modules name }, true)
  else
    ({ mm with failed_modules := setAdd mm.failed_modules name }, false)

/-- ModuleManager.load_all: loads each named module in order, counting
successes. `outcomes` gives the resolution result per name. -/
def load_all (mm : ModuleManager) (names : List String)
    (outcomes : String → LoadOutcome) : ModuleManager × Nat :=
  names.foldl
    (fun acc n =>
      let r := load_module acc.1 n (outcomes n)
      (r.1, acc.2 + (if r.2 then 1 else 0)))
    (mm, 0)

/-- ModuleManager.check_and_reload_failed: when the failed set is nonempty
and the retry interval has elapsed (`gate`), retries every currently
failed module (a snapshot of the set) and counts recoveries. -/
def check_and_reload_failed (mm : ModuleManager) (gate : Bool)
    (outcomes : String → LoadOutcome) : ModuleManager × Nat :=
  if mm.failed_modules.isEmpty then (mm, 0)
  else if gate then
    mm.failed_modules.foldl
      (fun acc n =>
        let r := load_module acc.1 n (outcomes n)
        (r.1, acc.2 + (if r.2 then 1 else 0)))
      (mm, 0)
  else (mm, 0)

/-- A module name is in at most one of the two states. -/
def MMDisjoint (mm : ModuleManager) : Prop :=
  ∀ n, n ∈ mm.modules → n ∉ mm.failed_modules

theorem load_module_disjoint (mm : ModuleManager) (name : String)
    (outcome : LoadOutcome) (h : MMDisjoint mm) :
    MMDisjoint (load_module mm name outcome).1 := by
  unfold load_module
  split_ifs with h1
  · intro n hn hf
    simp only [setRemove, List.mem_filter, decide_eq_true_eq] at hf
    rcases hf with ⟨hf1, hf2⟩
    simp only [setAdd] at hn
    split_ifs at hn with h2
    · exact h n hn hf1
    · rcases List.mem_cons.mp hn with h3 | h3
      · exact hf2 h3
      · exact h n h3 hf1
  · intro n hn hf
    simp only [setAdd] at hf
    split_ifs at hf with h2
    · exact h n hn hf
    · rcases List.mem_cons.mp hf with h3 | h3
      · subst h3
        exact h1 (Or.inl hn)
      · exact h n hn h3

theorem loadFold_disjoint (names : List String)
    (outcomes : String → LoadOutcome) :
    ∀ (mm : ModuleManager) (k : Nat), MMDisjoint mm →
      MMDisjoint (names.foldl
        (fun acc n =>
          let r := load_module acc.1 n (outcomes n)
          (r.1, acc.2 + (if r.2 then 1 else 0)))
        (mm, k)).1 := by
  induction names with
  | nil => intro mm k h; exact h
  | cons n rest ih =>
    intro mm k h
    simp only [List.foldl_cons]
    exact ih (load_module mm n (outcomes n)).1 _
      (load_module_disjoint mm n (outcomes n) h)

/-- One registry operation as performed by the controller: a single load,
a load_all sweep, or a gated retry of the failed set. -/
inductive MMStep : ModuleManager → ModuleManager → Prop where
  | load (mm : ModuleManager) (name : String) (outcome : LoadOutcome) :
      MMStep mm (load_module mm name outcome).1
  | loadAll (mm : ModuleManager) (names : List String)
      (outcomes : String → LoadOutcome) :
      MMStep mm (load_all mm names outcomes).1
  | retryFailed (mm : ModuleManager) (gate : Bool)
      (outcomes : String → LoadOutcome) :
      MMStep mm (check_and_reload_failed mm gate outcomes).1

/-- C9: after every sequence of load, load_all and check_and_reload_failed
operations starting from a state where the loaded and failed sets are
disjoint (in particular from the initial empty state), each module name is
in at most one of the two sets. -/
theorem module_sets_disjoint (mm mm' : ModuleManager) (h : MMDisjoint mm)
    (hreach : Relation.ReflTransGen MMStep mm mm') : MMDisjoint mm' := by
  induction hreach with
  | refl => exact h
  | tail hab hbc ih =>
    cases hbc with
    | load name outcome => exact load_module_disjoint _ name outcome ih
    | loadAll names outcomes => exact loadFold_disjoint names outcomes _ 0 ih
    | retryFailed gate outcomes =>
      unfold check_and_reload_failed
      split_ifs with h1 h2
      · exact ih
      · exact loadFold_disjoint _ outcomes _ 0 ih
      · exact ih

theorem module_sets_disjoint_w :
    MMDisjoint (load_all
      (load_module { modules := [], failed_modules := [] } "clock"
        LoadOutcome.fail).1
      ["clock", "weather", "stocks"] (fun _ => LoadOutcome.ok)).1 :=
  module_sets_disjoint { modules := [], failed_modules := [] } _
    (fun n hn => by simp at hn)
    (Relation.ReflTransGen.head
      (MMStep.load { modules := [], failed_modules := [] } "clock"
        LoadOutcome.fail)
      (Relation.ReflTransGen.single
        (MMStep.loadAll _ ["clock", "weather", "stocks"]
          (fun _ => LoadOutcome.ok))))

-- ==============================================
-- FrameComposer: DisplayController.render_frame
-- ==============================================

/-- An in-memory raster: the pixel value at integer coordinates. Drawing
operations clip to the canvas bounds (PIL semantics), so only coordinates
inside [0, W) × [0, H) are ever written; a Frame's content is the
restriction to those bounds. -/
def Canvas : Type := Int → Int → RGB

/-- Image.new('RGB', screen_size, (0, 0, 0)): the black canvas. -/
def blankCanvas : Canvas := fun _ _ => ⟨0, 0, 0⟩

/-- The text metrics and glyph raster of the placeholder label, produced
by the PIL font machinery (ImageFont/textbbox/draw.text), which is
external to the repository: width and height of the rendered text and
which pixel of its box is inked. -/
structure TextRender where
  textW : String → Nat
  textH : String → Nat
  ink : String → Nat → Nat → Bool

/-- canvas.paste(sub_img, (x, y)) for a w × h sub-image: the sub-image
pixels land at offset (x, y), clipped to the canvas bounds. -/
def paste (W H : Nat) (canvas : Canvas) (img : Canvas) (x y w h : Nat) :
    Canvas :=
  fun px py =>
    if (x : Int) ≤ px ∧ px < (x : Int) + w ∧ (y : Int) ≤ py
        ∧ py < (y : Int) + h ∧ 0 ≤ px ∧ px < (W : Int) ∧ 0 ≤ py
        ∧ py < (H : Int) then
      img (px - x) (py - y)
    else canvas px py

/-- DisplayController._draw_module_placeholder: a red (255, 50, 50)
rectangle outline of stroke width 2 at the region bounds and the label
"<name> Error" centered in the region (the centering offsets use Python
floor division, which can place a long label outside the region); all
drawing clips to the canvas. -/
def draw_module_placeholder (tr : TextRender) (W H : Nat) (canvas : Canvas)
    (x y w h : Nat) (mod_name : String) : Canvas :=
  let errColor : RGB := ⟨255, 50, 50⟩
  let text := mod_name ++ " Error"
  let text_w := tr.textW text
  let text_h := tr.textH text
  let text_x : Int := (x : Int) + Int.fdiv ((w : Int) - text_w) 2
  let text_y : Int := (y : Int) + Int.fdiv ((h : Int) - text_h) 2
  fun px py =>
    if 0 ≤ px ∧ px < (W : Int) ∧ 0 ≤ py ∧ py < (H : Int) then
      if text_x ≤ px ∧ px < text_x + text_w ∧ text_y ≤ py
          ∧ py < text_y + text_h
          ∧ tr.ink text (px - text_x).toNat (py - text_y).toNat then
        errColor
      else if (x : Int) ≤ px ∧ px ≤ (x : Int) + w - 1 ∧ (y : Int) ≤ py
          ∧ py ≤ (y : Int) + h - 1
          ∧ (px ≤ (x : Int) + 1 ∨ px ≥ (x : Int) + w - 2
              ∨ py ≤ (y : Int) + 1 ∨ py ≥ (y : Int) + h - 2) then
        errColor
      else canvas px py
    else canvas px py

/-- What the registry lookup plus the render attempt of one module can
produce inside the compose loop: the module is absent (get_module returned
None), or its get_surface(w, h) returns a surface, or get_surface raises. -/
inductive ModState where
  | absent
  | renders (img : Canvas)
  | raises

/-- One iteration of the compose loop of DisplayController.render_frame:
a present module that renders is pasted at the entry's origin; a present
module whose render raises is only logged, leaving the canvas untouched;
an absent module gets the placeholder. -/
def composeEntry (tr : TextRender) (W H : Nat) (env : String → ModState)
    (canvas : Canvas) (entry : String × Nat × Nat × Nat × Nat) : Canvas :=
  match env entry.1 with
  | ModState.renders img =>
      paste W H canvas img entry.2.1 entry.2.2.1 entry.2.2.2.1 entry.2.2.2.2
  | ModState.raises => canvas
  | ModState.absent =>
      draw_module_placeholder tr W H canvas entry.2.1 entry.2.2.1
        entry.2.2.2.1 entry.2.2.2.2 entry.1

/-- The composed frame of one cycle. -/
structure Frame where
  width : Nat
  height : Nat
  pix : Canvas

/-- The canvas-composition part of DisplayController.render_frame: a black
canvas at the configured screen size, then each layout entry composed in
order (the subsequent rgb565 conversion is modelled by
convert_to_rgb565). -/
def render_frame (tr : TextRender) (W H : Nat) (env : String → ModState)
    (layout : List (String × Nat × Nat × Nat × Nat)) : Frame :=
  { width := W, height := H,
    pix := layout.foldl (composeEntry tr W H env) blankCanvas }

theorem composeEntry_raises (tr : TextRender) (W H : Nat)
    (env : String → ModState) (canvas : Canvas)
    (entry : String × Nat × Nat × Nat × Nat)
    (h : env entry.1 = ModState.raises) :
    composeEntry tr W H env canvas entry = canvas := by
  simp [composeEntry, h]

theorem compose_fold_raise (tr : TextRender) (W H : Nat)
    (env : String → ModState) (name : String)
    (hraises : env name = ModState.raises) :
    ∀ (layout : List (String × Nat × Nat × Nat × Nat)) (canvas : Canvas),
      layout.foldl (composeEntry tr W H env) canvas
        = (layout.filter (fun e => e.1 != name)).foldl
            (composeEntry tr W H env) canvas := by
  intro layout
  induction layout with
  | nil => intro canvas; rfl
  | cons e rest ih =>
    intro canvas
    by_cases he : e.1 = name
    · have hid : composeEntry tr W H env canvas e = canvas :=
        composeEntry_raises tr W H env canvas e (by rw [he, hraises])
      have hfe : (e.1 != name) = false := by simp [he]
      simp only [List.foldl_cons, List.filter_cons, hfe]
      rw [hid]
      exact ih canvas
    · have hfe : (e.1 != name) = true := by simp [he]
      simp only [List.foldl_cons, List.filter_cons, hfe]
      simp only [if_pos]
      exact ih (composeEntry tr W H env canvas e)

/-- C1 amended: if a loaded module's render raises during compose, the
composed frame still has the full configured resolution and the failure is
contained, but no placeholder is drawn for it: the frame is pixel-for-
pixel the one composed with that entry removed from the layout (its
rectangle shows whatever the rest of the composition leaves there — the
black background when nothing overlaps it), so every other region is
unaffected. Placeholders are drawn only for absent modules. -/
theorem render_frame_raise_contained (tr : TextRender) (W H : Nat)
    (env : String → ModState)
    (layout : List (String × Nat × Nat × Nat × Nat)) (name : String)
    (hraises : env name = ModState.raises) :
    (render_frame tr W H env layout).width = W
  ∧ (render_frame tr W H env layout).height = H
  ∧ (render_frame tr W H env layout).pix
      = (render_frame tr W H env
          (layout.filter (fun e => e.1 != name))).pix := by
  refine ⟨rfl, rfl, ?_⟩
  unfold render_frame
  exact compose_fold_raise tr W H env name hraises layout blankCanvas

def trEx : TextRender :=
  { textW := fun _ => 0, textH := fun _ => 0, ink := fun _ _ _ => false }

def layoutEx : List (String × Nat × Nat × Nat × Nat) :=
  [("clock", 0, 0, 180, 80), ("weather", 180, 0, 300, 80)]

theorem render_frame_raise_contained_w :
    (render_frame trEx 480 320 (fun _ => ModState.raises) layoutEx).width
        = 480
  ∧ (render_frame trEx 480 320 (fun _ => ModState.raises) layoutEx).height
        = 320
  ∧ (render_frame trEx 480 320 (fun _ => ModState.raises) layoutEx).pix
      = (render_frame trEx 480 320 (fun _ => ModState.raises)
          (layoutEx.filter (fun e => e.1 != "weather"))).pix :=
  render_frame_raise_contained trEx 480 320 (fun _ => ModState.raises)
    layoutEx "weather" rfl

/-- C1 counterexample: with the clock module loaded and its render
raising, the composed frame keeps the black background at the top-left
corner of the clock rectangle, whereas a drawn placeholder would color
that border pixel (255, 50, 50): no placeholder occupies the failing
entry's rectangle. -/
theorem render_raise_no_placeholder_cex :
    (render_frame trEx 480 320 (fun _ => ModState.raises)
        [("clock", 0, 0, 180, 80)]).pix 0 0 = ⟨0, 0, 0⟩
  ∧ draw_module_placeholder trEx 480 320 blankCanvas 0 0 180 80 "clock" 0 0
      = ⟨255, 50, 50⟩
  ∧ (⟨0, 0, 0⟩ : RGB) ≠ ⟨255, 50, 50⟩ := by
  refine ⟨rfl, ?_, by decide⟩
  unfold draw_module_placeholder trEx
  norm_num
